import Mathlib

/-!
Verification of the stream-processing pipeline in
`app/services/stream_processor.py` (class `StreamProcessor`).

Modelling conventions:
* JSON-like Python values are the inductive `Value`; a Python dict is a
  `Payload` (association list with unique keys, insertion ordered), with
  `getVal` / `setVal` / `delVal` / `hasKey` mirroring `d[k]`, `d[k] = v`
  (`dict.update`), `del d[k]` and `k in d`.
* Python floats are modelled as exact rationals `ℚ`; wall-clock instants are
  rationals, ISO timestamp strings are opaque `String` parameters.
* Configuration flags (`settings.enable_kafka_output`, …) and the outcomes of
  external network calls (`KafkaService.produce_message`,
  `KinesisService.put_record`, which re-raise after their retries are
  exhausted) are explicit parameters of each operation.
* Code that may raise returns `Except Unit _`; code whose `try/except`
  swallows the error returns plainly.
-/

/-- JSON-like Python value (the payloads are deserialized JSON). -/
inductive Value where
  | str : String → Value
  | int : Int → Value
  | num : ℚ → Value
  | bool : Bool → Value
  | list : List Value → Value
  | obj : List (String × Value) → Value
  | null : Value

/-- A Python `dict[str, Any]`: ordered association list with unique keys. -/
def Payload : Type := List (String × Value)

/-- `d.get(k)` / `d[k]`: value at the first occurrence of key `k`. -/
def getVal (p : Payload) (k : String) : Option Value :=
  match p with
  | [] => none
  | (k', v) :: rest => if k' = k then some v else getVal rest k

/-- `k in d`. -/
def hasKey (p : Payload) (k : String) : Bool :=
  (getVal p k).isSome

/-- `d[k] = v` (also one key of a `dict.update`): replace in place, else append. -/
def setVal (p : Payload) (k : String) (v : Value) : Payload :=
  match p with
  | [] => [(k, v)]
  | (k', v') :: rest => if k' = k then (k, v) :: rest else (k', v') :: setVal rest k v

/-- `del d[k]`. -/
def delVal (p : Payload) (k : String) : Payload :=
  match p with
  | [] => []
  | (k', v') :: rest => if k' = k then delVal rest k else (k', v') :: delVal rest k

theorem getVal_setVal_self (p : Payload) (k : String) (v : Value) :
    getVal (setVal p k v) k = some v := by
  induction p with
  | nil => simp [setVal, getVal]
  | cons hd tl ih =>
    obtain ⟨k', v'⟩ := hd
    by_cases h : k' = k <;> simp [setVal, getVal, h, ih]

theorem getVal_setVal_ne (p : Payload) (k k' : String) (v : Value) (h : k ≠ k') :
    getVal (setVal p k v) k' = getVal p k' := by
  induction p with
  | nil => simp [setVal, getVal, h]
  | cons hd tl ih =>
    obtain ⟨k₀, v₀⟩ := hd
    by_cases h₀ : k₀ = k
    · subst h₀
      simp [setVal, getVal, h]
    · simp [setVal, getVal, h₀, ih]

theorem getVal_delVal_self (p : Payload) (k : String) :
    getVal (delVal p k) k = none := by
  induction p with
  | nil => simp [delVal, getVal]
  | cons hd tl ih =>
    obtain ⟨k₀, v₀⟩ := hd
    by_cases h₀ : k₀ = k <;> simp [delVal, getVal, h₀, ih]

theorem getVal_delVal_ne (p : Payload) (k k' : String) (h : k ≠ k') :
    getVal (delVal p k) k' = getVal p k' := by
  induction p with
  | nil => simp [delVal]
  | cons hd tl ih =>
    obtain ⟨k₀, v₀⟩ := hd
    by_cases h₀ : k₀ = k
    · subst h₀
      simp [delVal, getVal, ih, h]
    · by_cases h₁ : k₀ = k'
      · subst h₁
        simp [delVal, getVal, h₀, Ne.symm h, ih]
      · simp [delVal, getVal, h₀, h₁, ih]

/-- `StreamProcessor._categorize_amount` (stream_processor.py:256-267). -/
def categorizeAmount (amount : ℚ) : String :=
  if amount < 10 then "micro"
  else if amount < 100 then "small"
  else if amount < 1000 then "medium"
  else if amount < 10000 then "large"
  else "enterprise"

/-- Lookup table in `StreamProcessor._categorize_event` (stream_processor.py:239-254). -/
def eventCategories : List (String × String) :=
  [("user_login", "authentication"),
   ("user_logout", "authentication"),
   ("password_reset", "authentication"),
   ("purchase", "transaction"),
   ("refund", "transaction"),
   ("payment", "transaction"),
   ("page_view", "analytics"),
   ("click", "analytics"),
   ("search", "analytics"),
   ("error", "system"),
   ("warning", "system")]

/-- `StreamProcessor._categorize_event`: `event_categories.get(event_type.lower(), "other")`. -/
def categorizeEvent (eventType : String) : String :=
  (eventCategories.lookup eventType.toLower).getD "other"

/-! ## Default processor (`StreamProcessor._default_processor`, lines 206-237)

`datetime.now().isoformat()` is called twice (for `enriched_at` and for the
`timestamp` default); the two resulting strings are the parameters `nowIso`
and `tsIso`.  `_get_session_info` is a wall-clock-dependent mock returning a
dict; it is the parameter `si`.  The body's `try/except` returns the ORIGINAL
`data` if anything raises; the only raising step is
`processed_data["event_type"].lower()` when `event_type` is not a string
(`_categorize_amount` is guarded by `isinstance(amount, (int, float))`, which
in Python also accepts `bool`, a subclass of `int`). -/

/-- `if "amount" in d and isinstance(d["amount"], (int, float)):
    d["amount_category"] = self._categorize_amount(d["amount"])`. -/
def addAmountCategory (p : Payload) : Payload :=
  match getVal p "amount" with
  | some (Value.int n) => setVal p "amount_category" (Value.str (categorizeAmount (n : ℚ)))
  | some (Value.num q) => setVal p "amount_category" (Value.str (categorizeAmount q))
  | some (Value.bool b) =>
      setVal p "amount_category" (Value.str (categorizeAmount (if b then 1 else 0)))
  | _ => p

/-- `if "user_id" in d: d["session_info"] = await self._get_session_info(d["user_id"])`. -/
def addSessionInfo (si : Value → Value) (p : Payload) : Payload :=
  match getVal p "user_id" with
  | some uid => setVal p "session_info" (si uid)
  | none => p

/-- The `processed_data.update({"processor_id": ..., "enriched_at": ...,
"processing_version": ...})` stamp (stream_processor.py:211-215). -/
def dpStamp (nowIso : String) (data : Payload) : Payload :=
  setVal (setVal (setVal data "processor_id" (Value.str "default"))
      "enriched_at" (Value.str nowIso)) "processing_version" (Value.str "1.0")

/-- `if "timestamp" not in d: d["timestamp"] = datetime.now().isoformat()`
(stream_processor.py:218-219). -/
def dpEnsureTimestamp (tsIso : String) (p : Payload) : Payload :=
  if hasKey p "timestamp" then p else setVal p "timestamp" (Value.str tsIso)

/-- `StreamProcessor._default_processor` (stream_processor.py:206-237). -/
def defaultProcessor (nowIso tsIso : String) (si : Value → Value) (data : Payload) : Payload :=
  let p2 := dpEnsureTimestamp tsIso (dpStamp nowIso data)
  match getVal p2 "event_type" with
  | some (Value.str et) =>
      addSessionInfo si (addAmountCategory
        (setVal p2 "event_category" (Value.str (categorizeEvent et))))
  | some _ => data
  | none => addSessionInfo si (addAmountCategory p2)

/-- A message processor as stored in `StreamProcessor._processors`: it may
raise (custom processors do); the default processor never does. -/
def Proc : Type := Payload → Except Unit Payload

/-- The default processor as a total `Proc`. -/
def defaultProc (nowIso tsIso : String) (si : Value → Value) : Proc :=
  fun v => Except.ok (defaultProcessor nowIso tsIso si v)

/-- Processor resolution in `StreamProcessor._process_message`
(stream_processor.py:123-127): `if topic in self._processors:
processed_data = await self._processors[topic](value) else:
processed_data = await self._default_processor(value)`. -/
def resolveProcessor (nowIso tsIso : String) (si : Value → Value)
    (procs : List (String × Proc)) (topic : String) : Proc :=
  match procs.lookup topic with
  | some p => p
  | none => defaultProc nowIso tsIso si

/-! ## Message processing pipeline (`_process_message` / `_handle_processed_data`)

Per-message external data — the measured wall-clock `duration`
(`time.time() - start_time`), the ISO timestamps, and whether each sink call
succeeds on this message (`produce_message` / `put_record` re-raise their
error once retries are exhausted) — are fields of `MsgInput`.
`len(json.dumps(...))` is the parameter `jsonSize`. -/

/-- One record of `StreamProcessor._metrics_buffer`
(stream_processor.py:192-200). -/
structure MetricRecord where
  timestamp : String
  topic : String
  messageSize : Nat
  originalPartition : Int
  originalOffset : Int

/-- `StreamProcessor._processing_stats` (stream_processor.py:31-37);
`last_reset` is set at construction and never written again. -/
structure Stats where
  messagesProcessed : Nat
  processingErrors : Nat
  avgProcessingTime : ℚ
  messagesPerSecond : ℚ
  lastReset : String

/-- The mutable state of a `StreamProcessor` touched by the pipeline. -/
structure ProcState where
  stats : Stats
  processingTimes : List ℚ
  metricsBuffer : List MetricRecord
  lastMetricsFlush : ℚ

/-- State right after `StreamProcessor.__init__` (stream_processor.py:24-41). -/
def initialState (initIso : String) (t0 : ℚ) : ProcState :=
  { stats := { messagesProcessed := 0, processingErrors := 0,
               avgProcessingTime := 0, messagesPerSecond := 0, lastReset := initIso },
    processingTimes := [], metricsBuffer := [], lastMetricsFlush := t0 }

/-- The sink-routing configuration flags read by `_handle_processed_data` and
`_flush_metrics_buffer`. -/
structure SinkSettings where
  enableKafkaOutput : Bool
  enableKinesisOutput : Bool

/-- Per-message input: the delivered kafka message dict
(`kafka_service._consume_messages` builds `{topic, partition, offset, key,
value, ...}`) together with this message's external outcomes. -/
structure MsgInput where
  topic : String
  partition : Int
  offset : Int
  value : Payload
  duration : ℚ
  nowIso : String
  kafkaOk : Bool
  kinesisOk : Bool

/-- The `processed_data.update({...})` metadata stamp in
`_handle_processed_data` (stream_processor.py:167-172). -/
def stampMetadata (nowIso : String) (topic : String) (offset partition : Int)
    (pd : Payload) : Payload :=
  setVal (setVal (setVal (setVal pd "processed_at" (Value.str nowIso))
    "original_topic" (Value.str topic))
    "original_offset" (Value.int offset))
    "original_partition" (Value.int partition)

/-- Observable outcome of one `_handle_processed_data` call: the metrics
buffer afterwards, which sink publishes were attempted/succeeded, and whether
the call returned normally (`ok = false` means it raised). -/
structure HandleOutcome where
  buffer : List MetricRecord
  kafkaAttempted : Bool
  kafkaPublished : Bool
  kinesisAttempted : Bool
  kinesisPublished : Bool
  ok : Bool

/-- `StreamProcessor._handle_processed_data` (stream_processor.py:158-204):
stamp metadata, then sequentially (1) if `enable_kafka_output`, produce to
kafka — a failure raises out of the function, skipping everything after it;
(2) if `enable_kinesis_output`, put to kinesis — a failure likewise raises;
(3) append a `MetricRecord` to the metrics buffer. -/
def handleProcessedData (cfg : SinkSettings) (m : MsgInput)
    (jsonSize : Payload → Nat) (pd : Payload)
    (buf : List MetricRecord) : HandleOutcome :=
  let stamped := stampMetadata m.nowIso m.topic m.offset m.partition pd
  if cfg.enableKafkaOutput && !m.kafkaOk then
    { buffer := buf, kafkaAttempted := true, kafkaPublished := false,
      kinesisAttempted := false, kinesisPublished := false, ok := false }
  else if cfg.enableKinesisOutput && !m.kinesisOk then
    { buffer := buf, kafkaAttempted := cfg.enableKafkaOutput,
      kafkaPublished := cfg.enableKafkaOutput,
      kinesisAttempted := true, kinesisPublished := false, ok := false }
  else
    let rec0 : MetricRecord :=
      { timestamp := m.nowIso, topic := m.topic,
        messageSize := jsonSize stamped,
        originalPartition := m.partition, originalOffset := m.offset }
    { buffer := buf ++ [rec0],
      kafkaAttempted := cfg.enableKafkaOutput,
      kafkaPublished := cfg.enableKafkaOutput,
      kinesisAttempted := cfg.enableKinesisOutput,
      kinesisPublished := cfg.enableKinesisOutput, ok := true }

/-- The rolling-window update in `_process_message` (stream_processor.py:134-138):
append, then `if len > 1000: times = times[-1000:]`. -/
def updateTimes (ts : List ℚ) (t : ℚ) : List ℚ :=
  if (ts ++ [t]).length > 1000 then (ts ++ [t]).drop ((ts ++ [t]).length - 1000)
  else ts ++ [t]

/-- `StreamProcessor._process_message` (stream_processor.py:113-156): resolve
the processor, run it, hand the result to `_handle_processed_data`, then
record duration and increment `messages_processed`; any raise from the
processor or the handler lands in the `except` block, which increments
`processing_errors` only. -/
def processMessage (cfg : SinkSettings) (jsonSize : Payload → Nat)
    (si : Value → Value) (procs : List (String × Proc))
    (m : MsgInput) (st : ProcState) : ProcState :=
  match resolveProcessor m.nowIso m.nowIso si procs m.topic m.value with
  | Except.error _ =>
      { st with stats := { st.stats with
          processingErrors := st.stats.processingErrors + 1 } }
  | Except.ok pd =>
      let h := handleProcessedData cfg m jsonSize pd st.metricsBuffer
      if h.ok then
        { st with
          metricsBuffer := h.buffer,
          processingTimes := updateTimes st.processingTimes m.duration,
          stats := { st.stats with
            messagesProcessed := st.stats.messagesProcessed + 1 } }
      else
        { st with stats := { st.stats with
            processingErrors := st.stats.processingErrors + 1 } }

/-- A sequence of deliveries to `_process_message`. -/
def runMessages (cfg : SinkSettings) (jsonSize : Payload → Nat)
    (si : Value → Value) (procs : List (String × Proc))
    (msgs : List MsgInput) (st : ProcState) : ProcState :=
  msgs.foldl (fun s m => processMessage cfg jsonSize si procs m s) st

/-! ## Metrics aggregation (`_collect_metrics` / `_flush_metrics_buffer`) -/

/-- Result of one `_flush_metrics_buffer` call: the buffer afterwards and the
batch emitted to the `processing_metrics` topic, if any (the batch value also
carries `count = len(buffer)`). -/
structure FlushOutcome where
  buffer : List MetricRecord
  emitted : Option (List MetricRecord × Nat)

/-- `StreamProcessor._flush_metrics_buffer` (stream_processor.py:390-419):
return early on an empty buffer; otherwise, if `enable_metrics_to_kafka`,
produce the whole buffer as one message — a produce failure is caught by the
function's own `except`, so the trailing `self._metrics_buffer.clear()` is
skipped and the buffer survives; on success (or with the kafka emit disabled)
the buffer is cleared. -/
def flushMetricsBuffer (enableMetricsToKafka produceOk : Bool)
    (buf : List MetricRecord) : FlushOutcome :=
  if buf.isEmpty then { buffer := buf, emitted := none }
  else if enableMetricsToKafka then
    if produceOk then { buffer := [], emitted := some (buf, buf.length) }
    else { buffer := buf, emitted := none }
  else { buffer := [], emitted := none }

/-- `statistics.mean` over the rolling window. -/
def listMean (ts : List ℚ) : ℚ := ts.sum / (ts.length : ℚ)

/-- One iteration of the `_collect_metrics` loop body
(stream_processor.py:350-388), entered at wall-clock instant `currentTime`
(`time.time()`): update `avg_processing_time` only when the window is
non-empty; set `messages_per_second = messages_processed / time_diff` with
`time_diff = currentTime - last_metrics_flush` (0 when `time_diff ≤ 0`);
flush the buffer when its length exceeds `settings.metrics_buffer_size`;
finally zero both counters and advance `last_metrics_flush`. -/
def collectMetricsCycle (metricsBufferSize : Nat)
    (enableMetricsToKafka produceOk : Bool)
    (currentTime : ℚ) (st : ProcState) : ProcState :=
  let timeDiff := currentTime - st.lastMetricsFlush
  let st1 :=
    if st.processingTimes.isEmpty then st
    else { st with stats := { st.stats with
             avgProcessingTime := listMean st.processingTimes } }
  let mps : ℚ :=
    if 0 < timeDiff then (st1.stats.messagesProcessed : ℚ) / timeDiff else 0
  let st2 := { st1 with stats := { st1.stats with messagesPerSecond := mps } }
  let st3 :=
    if st2.metricsBuffer.length > metricsBufferSize then
      { st2 with metricsBuffer :=
          (flushMetricsBuffer enableMetricsToKafka produceOk st2.metricsBuffer).buffer }
    else st2
  { st3 with
    stats := { st3.stats with messagesProcessed := 0, processingErrors := 0 },
    lastMetricsFlush := currentTime }

/-! ## Registered `users` topic processor (`_register_default_processors`,
stream_processor.py:298-312) -/

/-- Python's `s.split(sep)` for a single-character separator, on the
character list: `"a@b@c" → ["a","b","c"]`, `"" → [""]`, `"abc" → ["abc"]`. -/
def pySplitList (c : Char) : List Char → List (List Char)
  | [] => [[]]
  | x :: xs =>
    match pySplitList c xs with
    | [] => [[]]
    | h :: t => if x = c then [] :: h :: t else (x :: h) :: t

/-- `s.split("@")[-1]`: last piece of the split (the split list is never
empty, so the default is unreachable). -/
def pySplitLast (c : Char) (s : String) : String :=
  String.mk ((pySplitList c s.toList).getLastD [])

/-- `if "user_id" in d: d["user_segment"] = await self._determine_user_segment(...)`
(stream_processor.py:303-304); `_determine_user_segment` is a `hash`-based
mock, the parameter `seg`. -/
def addUserSegment (seg : Value → String) (data : Payload) : Payload :=
  match getVal data "user_id" with
  | some uid => setVal data "user_segment" (Value.str (seg uid))
  | none => data

/-- `user_processor` (stream_processor.py:298-312): add `user_segment` when
`user_id` is present; when `email` is present, add
`email_domain = email.split("@")[-1]` and delete `email`; a non-string
`email` makes `.split` raise `AttributeError`, which propagates to the
caller; finally stamp `processed_by`. -/
def userProcessor (seg : Value → String) (data : Payload) : Except Unit Payload :=
  let p1 := addUserSegment seg data
  match getVal p1 "email" with
  | some (Value.str e) =>
      let p2 := setVal p1 "email_domain" (Value.str (pySplitLast '@' e))
      let p3 := delVal p2 "email"
      Except.ok (setVal p3 "processed_by" (Value.str "user_processor"))
  | some _ => Except.error ()
  | none => Except.ok (setVal p1 "processed_by" (Value.str "user_processor"))

/-! ## Claim theorems -/

/-- C5: amount categorization boundaries are exact for every numeric amount:
amounts below 10 map to "micro", below 100 to "small", below 1000 to
"medium", below 10000 to "large", and all other amounts to "enterprise"; in
particular 9.99→"micro", 10→"small", 99.99→"small", 100→"medium",
999.99→"medium", 1000→"large", 9999.99→"large", 10000→"enterprise". -/
theorem categorizeAmount_buckets :
    (∀ a : ℚ, a < 10 → categorizeAmount a = "micro") ∧
    (∀ a : ℚ, 10 ≤ a → a < 100 → categorizeAmount a = "small") ∧
    (∀ a : ℚ, 100 ≤ a → a < 1000 → categorizeAmount a = "medium") ∧
    (∀ a : ℚ, 1000 ≤ a → a < 10000 → categorizeAmount a = "large") ∧
    (∀ a : ℚ, 10000 ≤ a → categorizeAmount a = "enterprise") ∧
    categorizeAmount (999/100) = "micro" ∧
    categorizeAmount 10 = "small" ∧
    categorizeAmount (9999/100) = "small" ∧
    categorizeAmount 100 = "medium" ∧
    categorizeAmount (99999/100) = "medium" ∧
    categorizeAmount 1000 = "large" ∧
    categorizeAmount (999999/100) = "large" ∧
    categorizeAmount 10000 = "enterprise" := by
  refine ⟨?_, ?_, ?_, ?_, ?_, ?_, ?_, ?_, ?_, ?_, ?_, ?_, ?_⟩
  · intro a h
    simp [categorizeAmount, h]
  · intro a h1 h2
    simp [categorizeAmount, h2, not_lt.mpr (by linarith : (10:ℚ) ≤ a)]
  · intro a h1 h2
    simp [categorizeAmount, h2, not_lt.mpr (by linarith : (10:ℚ) ≤ a),
      not_lt.mpr (by linarith : (100:ℚ) ≤ a)]
  · intro a h1 h2
    simp [categorizeAmount, h2, not_lt.mpr (by linarith : (10:ℚ) ≤ a),
      not_lt.mpr (by linarith : (100:ℚ) ≤ a), not_lt.mpr (by linarith : (1000:ℚ) ≤ a)]
  · intro a h
    simp [categorizeAmount, not_lt.mpr (by linarith : (10:ℚ) ≤ a),
      not_lt.mpr (by linarith : (100:ℚ) ≤ a), not_lt.mpr (by linarith : (1000:ℚ) ≤ a),
      not_lt.mpr (by linarith : (10000:ℚ) ≤ a)]
  all_goals norm_num [categorizeAmount]

/-- Witness for `categorizeAmount_buckets`: the universally quantified bucket
clauses instantiated at concrete amounts. -/
theorem categorizeAmount_buckets_witness :
    categorizeAmount 5 = "micro" ∧ categorizeAmount 50 = "small" ∧
    categorizeAmount 500 = "medium" ∧ categorizeAmount 5000 = "large" ∧
    categorizeAmount 50000 = "enterprise" :=
  ⟨categorizeAmount_buckets.1 5 (by norm_num),
   categorizeAmount_buckets.2.1 50 (by norm_num) (by norm_num),
   categorizeAmount_buckets.2.2.1 500 (by norm_num) (by norm_num),
   categorizeAmount_buckets.2.2.2.1 5000 (by norm_num) (by norm_num),
   categorizeAmount_buckets.2.2.2.2.1 50000 (by norm_num)⟩

/-- C7: processor resolution is total: for every topic string it yields the
registered processor for that topic when one exists, and the default
processor otherwise — never null/undefined (the return type `Proc` has no
`none`). -/
theorem resolveProcessor_total (nowIso tsIso : String) (si : Value → Value)
    (procs : List (String × Proc)) (topic : String) :
    (∃ p, procs.lookup topic = some p ∧
      resolveProcessor nowIso tsIso si procs topic = p) ∨
    (procs.lookup topic = none ∧
      resolveProcessor nowIso tsIso si procs topic = defaultProc nowIso tsIso si) := by
  unfold resolveProcessor
  cases h : procs.lookup topic with
  | some p => exact Or.inl ⟨p, rfl, rfl⟩
  | none => exact Or.inr ⟨rfl, rfl⟩

/-- C9: in a metrics cycle where the rolling processing-time window is empty,
`avgProcessingTime` is left unchanged at its previous value; when the window
is non-empty it is set to the arithmetic mean of the window's samples. -/
theorem collectMetrics_avg (bufSize : Nat) (emk pok : Bool) (t : ℚ)
    (st : ProcState) :
    (st.processingTimes = [] →
      (collectMetricsCycle bufSize emk pok t st).stats.avgProcessingTime
        = st.stats.avgProcessingTime) ∧
    (st.processingTimes ≠ [] →
      (collectMetricsCycle bufSize emk pok t st).stats.avgProcessingTime
        = listMean st.processingTimes) := by
  constructor
  · intro h
    simp only [collectMetricsCycle, h, List.isEmpty_nil, if_true]
    split <;> rfl
  · intro h
    simp only [collectMetricsCycle, List.isEmpty_iff, h, if_false]
    split <;> rfl

/-- Witness for `collectMetrics_avg`: both branches at concrete states. -/
theorem collectMetrics_avg_witness :
    (collectMetricsCycle 100 false false 10 (initialState "i" 0)).stats.avgProcessingTime
      = (initialState "i" 0).stats.avgProcessingTime ∧
    (collectMetricsCycle 100 false false 10
      { initialState "i" 0 with processingTimes := [2, 4] }).stats.avgProcessingTime
      = listMean [2, 4] :=
  ⟨(collectMetrics_avg 100 false false 10 (initialState "i" 0)).1 rfl,
   (collectMetrics_avg 100 false false 10
      { initialState "i" 0 with processingTimes := [2, 4] }).2 (by simp)⟩

/-- C4: each metrics cycle computes `messagesPerSecond` as the
`messagesProcessed` count accumulated since the last cycle divided by the
elapsed wall-clock seconds since the last cycle boundary
(`last_metrics_flush`, not process start), and zeroes `messagesProcessed` and
`processingErrors` for the next cycle, advancing the cycle boundary to the
current instant. -/
theorem collectMetrics_rate_and_reset (bufSize : Nat) (emk pok : Bool)
    (t : ℚ) (st : ProcState) (h : st.lastMetricsFlush < t) :
    (collectMetricsCycle bufSize emk pok t st).stats.messagesPerSecond
      = (st.stats.messagesProcessed : ℚ) / (t - st.lastMetricsFlush) ∧
    (collectMetricsCycle bufSize emk pok t st).stats.messagesProcessed = 0 ∧
    (collectMetricsCycle bufSize emk pok t st).stats.processingErrors = 0 ∧
    (collectMetricsCycle bufSize emk pok t st).lastMetricsFlush = t := by
  have hpos : (0:ℚ) < t - st.lastMetricsFlush := by linarith
  refine ⟨?_, ?_, ?_, ?_⟩
  all_goals simp only [collectMetricsCycle, hpos, if_true]
  all_goals repeat' split
  all_goals rfl

/-- Witness for `collectMetrics_rate_and_reset`: 1500 messages accumulated
over a 10-second interval with zero errors give `messagesPerSecond = 150`,
and both counters are 0 at the start of the next cycle. -/
theorem collectMetrics_rate_and_reset_witness :
    (collectMetricsCycle 100 false false 10
      { stats := { messagesProcessed := 1500, processingErrors := 0,
                   avgProcessingTime := 0, messagesPerSecond := 0, lastReset := "i" },
        processingTimes := [], metricsBuffer := [],
        lastMetricsFlush := 0 }).stats.messagesPerSecond = 150 ∧
    (collectMetricsCycle 100 false false 10
      { stats := { messagesProcessed := 1500, processingErrors := 0,
                   avgProcessingTime := 0, messagesPerSecond := 0, lastReset := "i" },
        processingTimes := [], metricsBuffer := [],
        lastMetricsFlush := 0 }).stats.messagesProcessed = 0 ∧
    (collectMetricsCycle 100 false false 10
      { stats := { messagesProcessed := 1500, processingErrors := 0,
                   avgProcessingTime := 0, messagesPerSecond := 0, lastReset := "i" },
        processingTimes := [], metricsBuffer := [],
        lastMetricsFlush := 0 }).stats.processingErrors = 0 := by
  have h := collectMetrics_rate_and_reset 100 false false 10
    { stats := { messagesProcessed := 1500, processingErrors := 0,
                 avgProcessingTime := 0, messagesPerSecond := 0, lastReset := "i" },
      processingTimes := [], metricsBuffer := [],
      lastMetricsFlush := 0 } (by norm_num)
  refine ⟨?_, h.2.1, h.2.2.1⟩
  rw [h.1]
  norm_num

theorem updateTimes_length_le (ts : List ℚ) (t : ℚ) (h : ts.length ≤ 1000) :
    (updateTimes ts t).length ≤ 1000 := by
  unfold updateTimes
  split
  · rename_i hgt
    simp only [List.length_drop]
    omega
  · rename_i hle
    simp only [List.length_append, List.length_singleton] at *
    omega

theorem processMessage_times_le (cfg : SinkSettings) (jsonSize : Payload → Nat)
    (si : Value → Value) (procs : List (String × Proc)) (m : MsgInput)
    (st : ProcState) (h : st.processingTimes.length ≤ 1000) :
    (processMessage cfg jsonSize si procs m st).processingTimes.length ≤ 1000 := by
  unfold processMessage
  cases resolveProcessor m.nowIso m.nowIso si procs m.topic m.value with
  | error e => simpa using h
  | ok pd =>
    by_cases hok : (handleProcessedData cfg m jsonSize pd st.metricsBuffer).ok
    · simpa [hok] using updateTimes_length_le st.processingTimes m.duration h
    · simpa [hok] using h

theorem runMessages_times_le (cfg : SinkSettings) (jsonSize : Payload → Nat)
    (si : Value → Value) (procs : List (String × Proc)) (msgs : List MsgInput) :
    ∀ st : ProcState, st.processingTimes.length ≤ 1000 →
      (runMessages cfg jsonSize si procs msgs st).processingTimes.length ≤ 1000 := by
  induction msgs with
  | nil => intro st h; exact h
  | cons m ms ih =>
    intro st h
    have : runMessages cfg jsonSize si procs (m :: ms) st
        = runMessages cfg jsonSize si procs ms (processMessage cfg jsonSize si procs m st) := rfl
    rw [this]
    exact ih _ (processMessage_times_le cfg jsonSize si procs m st h)

/-- C6: the rolling processing-time window never exceeds 1000 entries after
any number of processed messages starting from a fresh processor; moreover
each `updateTimes` step is "append the duration, then keep only the last 1000
samples, dropping the oldest" (`drop` of the excess). -/
theorem processingTimes_window_bounded (cfg : SinkSettings)
    (jsonSize : Payload → Nat) (si : Value → Value)
    (procs : List (String × Proc)) (msgs : List MsgInput)
    (initIso : String) (t0 : ℚ) :
    (runMessages cfg jsonSize si procs msgs
        (initialState initIso t0)).processingTimes.length ≤ 1000 ∧
    (∀ (ts : List ℚ) (t : ℚ),
      updateTimes ts t = (ts ++ [t]).drop ((ts ++ [t]).length - 1000)) := by
  constructor
  · exact runMessages_times_le cfg jsonSize si procs msgs _ (by simp [initialState])
  · intro ts t
    unfold updateTimes
    split
    · rfl
    · rename_i hle
      have : (ts ++ [t]).length - 1000 = 0 := by omega
      rw [this, List.drop_zero]

/-- C1 (amended): per message, if the resolved processor succeeds AND the
subsequent handling/fan-out raises no error, `messagesProcessed` increases by
exactly 1 and `processingErrors` is unchanged; if the processor fails — or
the processor succeeds but `_handle_processed_data` raises (a sink failure) —
`processingErrors` increases by exactly 1 and `messagesProcessed` is
unchanged; no single message increments both counters. -/
theorem processMessage_counters (cfg : SinkSettings) (jsonSize : Payload → Nat)
    (si : Value → Value) (procs : List (String × Proc)) (m : MsgInput)
    (st : ProcState) :
    (∀ pd, resolveProcessor m.nowIso m.nowIso si procs m.topic m.value = Except.ok pd →
      ((handleProcessedData cfg m jsonSize pd st.metricsBuffer).ok = true →
        (processMessage cfg jsonSize si procs m st).stats.messagesProcessed
          = st.stats.messagesProcessed + 1 ∧
        (processMessage cfg jsonSize si procs m st).stats.processingErrors
          = st.stats.processingErrors) ∧
      ((handleProcessedData cfg m jsonSize pd st.metricsBuffer).ok = false →
        (processMessage cfg jsonSize si procs m st).stats.processingErrors
          = st.stats.processingErrors + 1 ∧
        (processMessage cfg jsonSize si procs m st).stats.messagesProcessed
          = st.stats.messagesProcessed)) ∧
    (∀ e, resolveProcessor m.nowIso m.nowIso si procs m.topic m.value = Except.error e →
      (processMessage cfg jsonSize si procs m st).stats.processingErrors
        = st.stats.processingErrors + 1 ∧
      (processMessage cfg jsonSize si procs m st).stats.messagesProcessed
        = st.stats.messagesProcessed) ∧
    ((processMessage cfg jsonSize si procs m st).stats.messagesProcessed
        = st.stats.messagesProcessed ∨
     (processMessage cfg jsonSize si procs m st).stats.processingErrors
        = st.stats.processingErrors) := by
  refine ⟨?_, ?_, ?_⟩
  · intro pd hpd
    constructor
    · intro hok
      simp [processMessage, hpd, hok]
    · intro hbad
      simp [processMessage, hpd, hbad]
  · intro e he
    simp [processMessage, he]
  · unfold processMessage
    cases hr : resolveProcessor m.nowIso m.nowIso si procs m.topic m.value with
    | error e => simp
    | ok pd =>
      by_cases hok : (handleProcessedData cfg m jsonSize pd st.metricsBuffer).ok
      · simp [hok]
      · simp [hok]

/-- Witness for `processMessage_counters`: a concrete message on an
unregistered topic (default processor, which always succeeds) with both
sinks disabled, so handling succeeds: `messagesProcessed` goes 0 → 1 and
`processingErrors` stays 0. -/
theorem processMessage_counters_witness :
    (processMessage ⟨false, false⟩ (fun _ => 0) (fun _ => Value.null) []
      ⟨"t1", 0, 0, [], 1, "now", true, true⟩
      (initialState "i" 0)).stats.messagesProcessed = 0 + 1 ∧
    (processMessage ⟨false, false⟩ (fun _ => 0) (fun _ => Value.null) []
      ⟨"t1", 0, 0, [], 1, "now", true, true⟩
      (initialState "i" 0)).stats.processingErrors = 0 :=
  ((processMessage_counters ⟨false, false⟩ (fun _ => 0) (fun _ => Value.null) []
      ⟨"t1", 0, 0, [], 1, "now", true, true⟩ (initialState "i" 0)).1
    (defaultProcessor "now" "now" (fun _ => Value.null) []) rfl).1 rfl

/-- C1 counterexample: the claim as stated ("if the processor succeeds,
`messagesProcessed` increases by exactly 1 and `processingErrors` is
unchanged") fails when the processor succeeds but a sink does: here the
default processor succeeds on an empty payload, kafka output is enabled and
the produce fails, so `processingErrors` becomes 1 and `messagesProcessed`
stays 0. -/
theorem processMessage_counters_counterexample :
    resolveProcessor "now" "now" (fun _ => Value.null) [] "t1" []
      = Except.ok (defaultProcessor "now" "now" (fun _ => Value.null) []) ∧
    (processMessage ⟨true, true⟩ (fun _ => 0) (fun _ => Value.null) []
      ⟨"t1", 0, 0, [], 1, "now", false, true⟩
      (initialState "i" 0)).stats.messagesProcessed = 0 ∧
    (processMessage ⟨true, true⟩ (fun _ => 0) (fun _ => Value.null) []
      ⟨"t1", 0, 0, [], 1, "now", false, true⟩
      (initialState "i" 0)).stats.processingErrors = 1 :=
  ⟨rfl, rfl, rfl⟩

/-- C2 (amended): fan-out is sequential (broker first, then the secondary
stream), not independent. In the scenario the claim names — secondary stream
down, broker up — the message IS published to the broker sink, the secondary
sink IS attempted, and exactly one error is counted (the failing sink's,
via the single `processing_errors` increment). But in the opposite
direction — broker sink down, secondary up — the broker failure raises
before the secondary sink is reached, so the secondary sink's attempt IS
suppressed. -/
theorem handleProcessedData_sink_fanout (cfg : SinkSettings)
    (jsonSize : Payload → Nat) (si : Value → Value)
    (procs : List (String × Proc)) (m : MsgInput) (st : ProcState)
    (pd : Payload)
    (hka : cfg.enableKafkaOutput = true) (hki : cfg.enableKinesisOutput = true)
    (hok : m.kafkaOk = true) (hbad : m.kinesisOk = false)
    (hp : resolveProcessor m.nowIso m.nowIso si procs m.topic m.value
      = Except.ok pd) :
    (handleProcessedData cfg m jsonSize pd st.metricsBuffer).kafkaPublished = true ∧
    (handleProcessedData cfg m jsonSize pd st.metricsBuffer).kinesisAttempted = true ∧
    (handleProcessedData cfg m jsonSize pd st.metricsBuffer).kinesisPublished = false ∧
    (handleProcessedData cfg m jsonSize pd st.metricsBuffer).ok = false ∧
    (processMessage cfg jsonSize si procs m st).stats.processingErrors
      = st.stats.processingErrors + 1 ∧
    (processMessage cfg jsonSize si procs m st).stats.messagesProcessed
      = st.stats.messagesProcessed ∧
    (∀ (m2 : MsgInput) (pd2 : Payload) (buf2 : List MetricRecord),
      m2.kafkaOk = false →
      (handleProcessedData cfg m2 jsonSize pd2 buf2).kafkaAttempted = true ∧
      (handleProcessedData cfg m2 jsonSize pd2 buf2).kinesisAttempted = false ∧
      (handleProcessedData cfg m2 jsonSize pd2 buf2).ok = false) := by
  have hh : (handleProcessedData cfg m jsonSize pd st.metricsBuffer).ok = false := by
    simp [handleProcessedData, hka, hki, hok, hbad]
  refine ⟨?_, ?_, ?_, hh, ?_, ?_, ?_⟩
  · simp [handleProcessedData, hka, hki, hok, hbad]
  · simp [handleProcessedData, hka, hki, hok, hbad]
  · simp [handleProcessedData, hka, hki, hok, hbad]
  · simp [processMessage, hp, hh]
  · simp [processMessage, hp, hh]
  · intro m2 pd2 buf2 h2
    refine ⟨?_, ?_, ?_⟩ <;> simp [handleProcessedData, hka, h2]

/-- Witness for `handleProcessedData_sink_fanout`: concrete message with the
broker up and the secondary stream down. -/
theorem handleProcessedData_sink_fanout_witness :
    (handleProcessedData ⟨true, true⟩ ⟨"t1", 0, 0, [], 1, "now", true, false⟩
      (fun _ => 0) (defaultProcessor "now" "now" (fun _ => Value.null) [])
      (initialState "i" 0).metricsBuffer).kafkaPublished = true ∧
    (processMessage ⟨true, true⟩ (fun _ => 0) (fun _ => Value.null) []
      ⟨"t1", 0, 0, [], 1, "now", true, false⟩
      (initialState "i" 0)).stats.processingErrors = 0 + 1 :=
  ⟨(handleProcessedData_sink_fanout ⟨true, true⟩ (fun _ => 0)
      (fun _ => Value.null) [] ⟨"t1", 0, 0, [], 1, "now", true, false⟩
      (initialState "i" 0) (defaultProcessor "now" "now" (fun _ => Value.null) [])
      rfl rfl rfl rfl rfl).1,
   (handleProcessedData_sink_fanout ⟨true, true⟩ (fun _ => 0)
      (fun _ => Value.null) [] ⟨"t1", 0, 0, [], 1, "now", true, false⟩
      (initialState "i" 0) (defaultProcessor "now" "now" (fun _ => Value.null) [])
      rfl rfl rfl rfl rfl).2.2.2.2.1⟩

/-- C2 counterexample: the claim's symmetric independence fails in the
broker-fails direction: with both sinks enabled, the broker down and the
secondary stream up, the secondary sink is never attempted (its attempt is
suppressed by the broker failure), contradicting "the failure does not block
or suppress the other sink's attempt". -/
theorem handleProcessedData_sink_fanout_counterexample :
    (handleProcessedData ⟨true, true⟩ ⟨"t1", 0, 0, [], 1, "now", false, true⟩
      (fun _ => 0) [] []).kinesisAttempted = false ∧
    (handleProcessedData ⟨true, true⟩ ⟨"t1", 0, 0, [], 1, "now", false, true⟩
      (fun _ => 0) [] []).kinesisPublished = false ∧
    (handleProcessedData ⟨true, true⟩ ⟨"t1", 0, 0, [], 1, "now", false, true⟩
      (fun _ => 0) [] []).kafkaAttempted = true :=
  ⟨rfl, rfl, rfl⟩

/-- C3 (amended): `_flush_metrics_buffer` clears the buffer and emits the
records exactly once as a single batch when the kafka emit succeeds; it also
clears (without emitting anywhere) when `enable_metrics_to_kafka` is off; but
when the emit FAILS, the internal `except` skips the clear, so the buffer is
left exactly as it was (records retained for a later flush — none emitted,
none lost — and the buffer size is NOT 0 after the flush returns). -/
theorem flushMetricsBuffer_behavior (emk pok : Bool) (buf : List MetricRecord) :
    (emk = false ∨ pok = true → (flushMetricsBuffer emk pok buf).buffer = []) ∧
    (emk = true → pok = true → buf ≠ [] →
      (flushMetricsBuffer emk pok buf).emitted = some (buf, buf.length)) ∧
    (emk = true → pok = false → buf ≠ [] →
      (flushMetricsBuffer emk pok buf).buffer = buf ∧
      (flushMetricsBuffer emk pok buf).emitted = none) ∧
    (emk = false → (flushMetricsBuffer emk pok buf).emitted = none) ∧
    (buf = [] → (flushMetricsBuffer emk pok buf).buffer = []
      ∧ (flushMetricsBuffer emk pok buf).emitted = none) := by
  refine ⟨?_, ?_, ?_, ?_, ?_⟩
  · rintro (h | h)
    · rcases buf with _ | ⟨r, rest⟩ <;> simp [flushMetricsBuffer, h]
    · rcases buf with _ | ⟨r, rest⟩
      · simp [flushMetricsBuffer]
      · simp only [flushMetricsBuffer, h, List.isEmpty_cons, Bool.false_eq_true,
          if_false, if_true]
        split <;> rfl
  · intro h1 h2 h3
    simp [flushMetricsBuffer, h1, h2, h3]
  · intro h1 h2 h3
    constructor <;> simp [flushMetricsBuffer, h1, h2, h3]
  · intro h1
    rcases hbuf : buf with _ | ⟨r, rest⟩ <;> simp [flushMetricsBuffer, h1]
  · intro h
    subst h
    constructor <;> simp [flushMetricsBuffer]

/-- Witness for `flushMetricsBuffer_behavior`: a successful flush of a
one-record buffer empties it and emits that record as a batch of count 1. -/
theorem flushMetricsBuffer_behavior_witness :
    (flushMetricsBuffer true true [⟨"ts", "t1", 7, 0, 3⟩]).buffer = [] ∧
    (flushMetricsBuffer true true [⟨"ts", "t1", 7, 0, 3⟩]).emitted
      = some ([⟨"ts", "t1", 7, 0, 3⟩], 1) :=
  ⟨(flushMetricsBuffer_behavior true true [⟨"ts", "t1", 7, 0, 3⟩]).1 (Or.inr rfl),
   (flushMetricsBuffer_behavior true true [⟨"ts", "t1", 7, 0, 3⟩]).2.1 rfl rfl
     (by simp)⟩

/-- C3 counterexample: with `enable_metrics_to_kafka` on and the produce
failing, the flush returns with the record still in the buffer — the buffer
size after the flush is 1, not 0. -/
theorem flushMetricsBuffer_counterexample :
    (flushMetricsBuffer true false [⟨"ts", "t1", 7, 0, 3⟩]).buffer.length = 1 ∧
    (flushMetricsBuffer true false [⟨"ts", "t1", 7, 0, 3⟩]).buffer
      = [⟨"ts", "t1", 7, 0, 3⟩] :=
  ⟨rfl, rfl⟩

/-! ## Idempotence of the default processor on its classification fields -/

theorem getVal_dpStamp_ne (n : String) (d : Payload) (k : String)
    (h1 : "processor_id" ≠ k) (h2 : "enriched_at" ≠ k)
    (h3 : "processing_version" ≠ k) :
    getVal (dpStamp n d) k = getVal d k := by
  unfold dpStamp
  rw [getVal_setVal_ne _ _ _ _ h3, getVal_setVal_ne _ _ _ _ h2,
    getVal_setVal_ne _ _ _ _ h1]

theorem getVal_dpEnsureTimestamp_ne (t : String) (p : Payload) (k : String)
    (h : "timestamp" ≠ k) :
    getVal (dpEnsureTimestamp t p) k = getVal p k := by
  unfold dpEnsureTimestamp
  split
  · rfl
  · rw [getVal_setVal_ne _ _ _ _ h]

theorem getVal_dpPre_ne (n t : String) (d : Payload) (k : String)
    (h1 : "processor_id" ≠ k) (h2 : "enriched_at" ≠ k)
    (h3 : "processing_version" ≠ k) (h4 : "timestamp" ≠ k) :
    getVal (dpEnsureTimestamp t (dpStamp n d)) k = getVal d k := by
  rw [getVal_dpEnsureTimestamp_ne _ _ _ h4, getVal_dpStamp_ne _ _ _ h1 h2 h3]

theorem getVal_addAmountCategory_ne (p : Payload) (k : String)
    (h : "amount_category" ≠ k) :
    getVal (addAmountCategory p) k = getVal p k := by
  unfold addAmountCategory
  split <;> first | rw [getVal_setVal_ne _ _ _ _ h] | rfl

theorem getVal_addSessionInfo_ne (si : Value → Value) (p : Payload) (k : String)
    (h : "session_info" ≠ k) :
    getVal (addSessionInfo si p) k = getVal p k := by
  unfold addSessionInfo
  split <;> first | rw [getVal_setVal_ne _ _ _ _ h] | rfl

/-- The category string `addAmountCategory` would stamp for a given `amount`
lookup result (`none` when the amount is absent or non-numeric). -/
def amountCategoryOf (av : Option Value) : Option String :=
  match av with
  | some (Value.int n) => some (categorizeAmount (n : ℚ))
  | some (Value.num q) => some (categorizeAmount q)
  | some (Value.bool b) => some (categorizeAmount (if b then 1 else 0))
  | _ => none

theorem getVal_addAmountCategory_self (p : Payload) :
    getVal (addAmountCategory p) "amount_category"
      = match amountCategoryOf (getVal p "amount") with
        | some s => some (Value.str s)
        | none => getVal p "amount_category" := by
  cases hv : getVal p "amount" with
  | none => simp [addAmountCategory, hv, amountCategoryOf]
  | some v =>
    cases v <;> simp [addAmountCategory, hv, amountCategoryOf, getVal_setVal_self]

/-- `isinstance(v, str)`. -/
def isStrValue : Value → Bool
  | Value.str _ => true
  | _ => false

theorem dp_getVal_ne (n t : String) (si : Value → Value) (p : Payload) (k : String)
    (h1 : "processor_id" ≠ k) (h2 : "enriched_at" ≠ k)
    (h3 : "processing_version" ≠ k) (h4 : "timestamp" ≠ k)
    (h5 : "event_category" ≠ k) (h6 : "amount_category" ≠ k)
    (h7 : "session_info" ≠ k) :
    getVal (defaultProcessor n t si p) k = getVal p k := by
  have hpreK : getVal (dpEnsureTimestamp t (dpStamp n p)) k = getVal p k :=
    getVal_dpPre_ne n t p k h1 h2 h3 h4
  have hpreE : getVal (dpEnsureTimestamp t (dpStamp n p)) "event_type"
      = getVal p "event_type" :=
    getVal_dpPre_ne n t p "event_type" (by decide) (by decide) (by decide) (by decide)
  cases hev : getVal p "event_type" with
  | none =>
    have h : getVal (dpEnsureTimestamp t (dpStamp n p)) "event_type" = none := by
      rw [hpreE, hev]
    simp only [defaultProcessor, h]
    rw [getVal_addSessionInfo_ne _ _ _ h7, getVal_addAmountCategory_ne _ _ h6, hpreK]
  | some v =>
    have h : getVal (dpEnsureTimestamp t (dpStamp n p)) "event_type" = some v := by
      rw [hpreE, hev]
    cases v with
    | str et =>
      simp only [defaultProcessor, h]
      rw [getVal_addSessionInfo_ne _ _ _ h7, getVal_addAmountCategory_ne _ _ h6,
        getVal_setVal_ne _ _ _ _ h5, hpreK]
    | int m => simp [defaultProcessor, h]
    | num q => simp [defaultProcessor, h]
    | bool b => simp [defaultProcessor, h]
    | list l => simp [defaultProcessor, h]
    | obj o => simp [defaultProcessor, h]
    | null => simp [defaultProcessor, h]

theorem dp_ec_of_str (n t : String) (si : Value → Value) (p : Payload)
    (et : String) (hev : getVal p "event_type" = some (Value.str et)) :
    getVal (defaultProcessor n t si p) "event_category"
      = some (Value.str (categorizeEvent et)) := by
  have h : getVal (dpEnsureTimestamp t (dpStamp n p)) "event_type"
      = some (Value.str et) := by
    rw [getVal_dpPre_ne n t p "event_type" (by decide) (by decide) (by decide)
      (by decide), hev]
  simp only [defaultProcessor, h]
  rw [getVal_addSessionInfo_ne _ _ _ (by decide),
    getVal_addAmountCategory_ne _ _ (by decide), getVal_setVal_self]

theorem dp_ec_of_none (n t : String) (si : Value → Value) (p : Payload)
    (hev : getVal p "event_type" = none) :
    getVal (defaultProcessor n t si p) "event_category"
      = getVal p "event_category" := by
  have h : getVal (dpEnsureTimestamp t (dpStamp n p)) "event_type" = none := by
    rw [getVal_dpPre_ne n t p "event_type" (by decide) (by decide) (by decide)
      (by decide), hev]
  simp only [defaultProcessor, h]
  rw [getVal_addSessionInfo_ne _ _ _ (by decide),
    getVal_addAmountCategory_ne _ _ (by decide),
    getVal_dpPre_ne n t p "event_category" (by decide) (by decide) (by decide)
      (by decide)]

theorem dp_ac_of_str (n t : String) (si : Value → Value) (p : Payload)
    (et : String) (hev : getVal p "event_type" = some (Value.str et)) :
    getVal (defaultProcessor n t si p) "amount_category"
      = match amountCategoryOf (getVal p "amount") with
        | some s => some (Value.str s)
        | none => getVal p "amount_category" := by
  have h : getVal (dpEnsureTimestamp t (dpStamp n p)) "event_type"
      = some (Value.str et) := by
    rw [getVal_dpPre_ne n t p "event_type" (by decide) (by decide) (by decide)
      (by decide), hev]
  simp only [defaultProcessor, h]
  rw [getVal_addSessionInfo_ne _ _ _ (by decide), getVal_addAmountCategory_self,
    getVal_setVal_ne _ _ _ _ (by decide : "event_category" ≠ "amount"),
    getVal_dpPre_ne n t p "amount" (by decide) (by decide) (by decide) (by decide),
    getVal_setVal_ne _ _ _ _ (by decide : "event_category" ≠ "amount_category"),
    getVal_dpPre_ne n t p "amount_category" (by decide) (by decide) (by decide)
      (by decide)]

theorem dp_ac_of_none (n t : String) (si : Value → Value) (p : Payload)
    (hev : getVal p "event_type" = none) :
    getVal (defaultProcessor n t si p) "amount_category"
      = match amountCategoryOf (getVal p "amount") with
        | some s => some (Value.str s)
        | none => getVal p "amount_category" := by
  have h : getVal (dpEnsureTimestamp t (dpStamp n p)) "event_type" = none := by
    rw [getVal_dpPre_ne n t p "event_type" (by decide) (by decide) (by decide)
      (by decide), hev]
  simp only [defaultProcessor, h]
  rw [getVal_addSessionInfo_ne _ _ _ (by decide), getVal_addAmountCategory_self,
    getVal_dpPre_ne n t p "amount" (by decide) (by decide) (by decide) (by decide),
    getVal_dpPre_ne n t p "amount_category" (by decide) (by decide) (by decide)
      (by decide)]

theorem dp_of_badEventType (n t : String) (si : Value → Value) (p : Payload)
    (v : Value) (hev : getVal p "event_type" = some v)
    (hv : isStrValue v = false) :
    defaultProcessor n t si p = p := by
  have h : getVal (dpEnsureTimestamp t (dpStamp n p)) "event_type" = some v := by
    rw [getVal_dpPre_ne n t p "event_type" (by decide) (by decide) (by decide)
      (by decide), hev]
  cases v with
  | str s => simp [isStrValue] at hv
  | int m => simp [defaultProcessor, h]
  | num q => simp [defaultProcessor, h]
  | bool b => simp [defaultProcessor, h]
  | list l => simp [defaultProcessor, h]
  | obj o => simp [defaultProcessor, h]
  | null => simp [defaultProcessor, h]

/-- C8: the default processor is idempotent on its classification fields:
reapplying it to any of its own outputs leaves `event_category` and
`amount_category` unchanged (round-trip stability), for any combination of
timestamps and session-info mocks across the two applications. -/
theorem defaultProcessor_idempotent_classification (n1 t1 n2 t2 : String)
    (si1 si2 : Value → Value) (p : Payload) :
    getVal (defaultProcessor n2 t2 si2 (defaultProcessor n1 t1 si1 p))
        "event_category"
      = getVal (defaultProcessor n1 t1 si1 p) "event_category" ∧
    getVal (defaultProcessor n2 t2 si2 (defaultProcessor n1 t1 si1 p))
        "amount_category"
      = getVal (defaultProcessor n1 t1 si1 p) "amount_category" := by
  have hqet : getVal (defaultProcessor n1 t1 si1 p) "event_type"
      = getVal p "event_type" :=
    dp_getVal_ne n1 t1 si1 p "event_type" (by decide) (by decide) (by decide)
      (by decide) (by decide) (by decide) (by decide)
  have hqam : getVal (defaultProcessor n1 t1 si1 p) "amount"
      = getVal p "amount" :=
    dp_getVal_ne n1 t1 si1 p "amount" (by decide) (by decide) (by decide)
      (by decide) (by decide) (by decide) (by decide)
  cases hev : getVal p "event_type" with
  | none =>
    have hqev : getVal (defaultProcessor n1 t1 si1 p) "event_type" = none := by
      rw [hqet, hev]
    constructor
    · rw [dp_ec_of_none n2 t2 si2 _ hqev]
    · rw [dp_ac_of_none n2 t2 si2 _ hqev, hqam]
      cases hac : amountCategoryOf (getVal p "amount") with
      | none => rfl
      | some s =>
        have h2 := dp_ac_of_none n1 t1 si1 p hev
        rw [hac] at h2
        exact h2.symm
  | some v =>
    cases hsv : isStrValue v with
    | false =>
      have hq_eq : defaultProcessor n1 t1 si1 p = p :=
        dp_of_badEventType n1 t1 si1 p v hev hsv
      have h2 : defaultProcessor n2 t2 si2 (defaultProcessor n1 t1 si1 p)
          = defaultProcessor n1 t1 si1 p := by
        rw [hq_eq]
        exact dp_of_badEventType n2 t2 si2 p v hev hsv
      rw [h2]
      exact ⟨rfl, rfl⟩
    | true =>
      obtain ⟨et, rfl⟩ : ∃ et, v = Value.str et := by
        cases v <;> first | exact ⟨_, rfl⟩ | simp [isStrValue] at hsv
      have hqev : getVal (defaultProcessor n1 t1 si1 p) "event_type"
          = some (Value.str et) := by
        rw [hqet, hev]
      constructor
      · rw [dp_ec_of_str n2 t2 si2 _ et hqev, dp_ec_of_str n1 t1 si1 p et hev]
      · rw [dp_ac_of_str n2 t2 si2 _ et hqev, hqam]
        cases hac : amountCategoryOf (getVal p "amount") with
        | none => rfl
        | some s =>
          have h2 := dp_ac_of_str n1 t1 si1 p et hev
          rw [hac] at h2
          exact h2.symm

/-! ## `email.split("@")[-1]` -/

theorem pySplitList_ne_nil (c : Char) (l : List Char) : pySplitList c l ≠ [] := by
  cases l with
  | nil => simp [pySplitList]
  | cons x xs =>
    simp only [pySplitList]
    split
    · simp
    · split <;> simp

theorem pySplitList_no_sep (c : Char) (l : List Char) (h : c ∉ l) :
    pySplitList c l = [l] := by
  induction l with
  | nil => rfl
  | cons x xs ih =>
    have hx : x ≠ c := fun hc => h (by simp [hc])
    have hxs : c ∉ xs := fun hc => h (List.mem_cons_of_mem _ hc)
    simp only [pySplitList, ih hxs]
    simp [hx]

theorem pySplitList_length_of_mem (c : Char) (l : List Char) (h : c ∈ l) :
    2 ≤ (pySplitList c l).length := by
  induction l with
  | nil => simp at h
  | cons x xs ih =>
    simp only [pySplitList]
    rcases hs : pySplitList c xs with _ | ⟨hd, tl⟩
    · exact absurd hs (pySplitList_ne_nil c xs)
    · by_cases hx : x = c
      · simp [hx]
      · have hm : c ∈ xs := by
          rcases List.mem_cons.mp h with h1 | h1
          · exact absurd h1.symm hx
          · exact h1
        have := ih hm
        rw [hs] at this
        simp only [hx, if_false]
        simpa using this

theorem getLastD_of_ne_nil {α : Type} (t : List α) (d1 d2 : α) (h : t ≠ []) :
    t.getLastD d1 = t.getLastD d2 := by
  cases t with
  | nil => exact absurd rfl h
  | cons z t' => rw [List.getLastD_cons, List.getLastD_cons]

theorem pySplitList_getLastD (c : Char) (a b : List Char) (hb : c ∉ b) :
    (pySplitList c (a ++ c :: b)).getLastD [] = b := by
  induction a with
  | nil =>
    simp only [List.nil_append, pySplitList]
    rw [pySplitList_no_sep c b hb]
    simp
  | cons x a' ih =>
    simp only [List.cons_append, pySplitList]
    rcases hs : pySplitList c (a' ++ c :: b) with _ | ⟨hd, tl⟩
    · exact absurd hs (pySplitList_ne_nil c _)
    · have hlen : 2 ≤ (pySplitList c (a' ++ c :: b)).length :=
        pySplitList_length_of_mem c _ (by simp)
      rw [hs] at hlen
      have htl : tl ≠ [] := by
        intro hnil
        rw [hnil] at hlen
        simp at hlen
      rw [hs] at ih
      by_cases hx : x = c
      · simp only [hx, if_true]
        simpa [List.getLastD_cons] using ih
      · simp only [hx, if_false]
        rw [List.getLastD_cons] at ih ⊢
        rw [getLastD_of_ne_nil tl (x :: hd) hd htl]
        exact ih

/-- C10 (implicit, from `user_processor`): for every payload with a string
`email` field of the form `⟨before⟩@⟨after⟩` with no '@' in `⟨after⟩` (the
part after the LAST '@'), the processor succeeds, the output contains no
`email` key, and `email_domain` equals that after-part; payloads with no
`email` key gain no `email_domain` (the key's lookup is exactly what it was
on input). -/
theorem getVal_addUserSegment_ne (seg : Value → String) (data : Payload)
    (k : String) (hk : "user_segment" ≠ k) :
    getVal (addUserSegment seg data) k = getVal data k := by
  unfold addUserSegment
  split
  · rw [getVal_setVal_ne _ _ _ _ hk]
  · rfl

/-- C10 (implicit, from `user_processor`): for every payload with a string
`email` field of the form `⟨before⟩@⟨after⟩` with no '@' in `⟨after⟩` (the
part after the LAST '@'), the processor succeeds, the output contains no
`email` key, and `email_domain` equals that after-part; payloads with no
`email` key gain no `email_domain` (the key's lookup is exactly what it was
on input). -/
theorem userProcessor_email_anonymization (seg : Value → String) (data : Payload) :
    (∀ (e : String) (a b : List Char),
      getVal data "email" = some (Value.str e) →
      e.toList = a ++ '@' :: b → '@' ∉ b →
      ∃ q, userProcessor seg data = Except.ok q ∧
        getVal q "email" = none ∧
        getVal q "email_domain" = some (Value.str (String.mk b))) ∧
    (getVal data "email" = none →
      ∃ q, userProcessor seg data = Except.ok q ∧
        getVal q "email_domain" = getVal data "email_domain") := by
  constructor
  · intro e a b hmail hsplit hb
    have hm1 : getVal (addUserSegment seg data) "email" = some (Value.str e) := by
      rw [getVal_addUserSegment_ne _ _ _ (by decide), hmail]
    refine ⟨setVal (delVal (setVal (addUserSegment seg data) "email_domain"
      (Value.str (pySplitLast '@' e))) "email") "processed_by"
      (Value.str "user_processor"), ?_, ?_, ?_⟩
    · simp only [userProcessor, hm1]
    · rw [getVal_setVal_ne _ _ _ _ (by decide : "processed_by" ≠ "email"),
        getVal_delVal_self]
    · rw [getVal_setVal_ne _ _ _ _ (by decide : "processed_by" ≠ "email_domain"),
        getVal_delVal_ne _ _ _ (by decide : "email" ≠ "email_domain"),
        getVal_setVal_self]
      have hlast : pySplitLast '@' e = String.mk b := by
        unfold pySplitLast
        rw [hsplit, pySplitList_getLastD '@' a b hb]
      rw [hlast]
  · intro hmail
    have hm1 : getVal (addUserSegment seg data) "email" = none := by
      rw [getVal_addUserSegment_ne _ _ _ (by decide), hmail]
    refine ⟨setVal (addUserSegment seg data) "processed_by"
      (Value.str "user_processor"), ?_, ?_⟩
    · simp only [userProcessor, hm1]
    · rw [getVal_setVal_ne _ _ _ _ (by decide : "processed_by" ≠ "email_domain"),
        getVal_addUserSegment_ne _ _ _ (by decide)]

/-- Witness for `userProcessor_email_anonymization`: both parts at concrete
payloads — an email `alice@example.com` is replaced by
`email_domain = "example.com"`, and a payload without `email` keeps its
`email_domain` lookup (here: absent). -/
theorem userProcessor_email_anonymization_witness :
    (∃ q, userProcessor (fun _ => "bronze")
        [("email", Value.str "alice@example.com")] = Except.ok q ∧
      getVal q "email" = none ∧
      getVal q "email_domain" = some (Value.str "example.com")) ∧
    (∃ q, userProcessor (fun _ => "bronze")
        [("name", Value.str "bob")] = Except.ok q ∧
      getVal q "email_domain" = getVal [("name", Value.str "bob")] "email_domain") :=
  ⟨(userProcessor_email_anonymization (fun _ => "bronze")
      [("email", Value.str "alice@example.com")]).1
    "alice@example.com" "alice".toList "example.com".toList rfl (by decide)
    (by decide),
   (userProcessor_email_anonymization (fun _ => "bronze")
      [("name", Value.str "bob")]).2 rfl⟩
